import Mathlib

/-!
Verification development for the authentication and request-authorization
pipeline of the triton-rustadminui gateway.

The embedding follows the Rust source:
  - `src/auth/mod.rs`         : JWT claims, `create_token`, `verify_token`;
  - `src/auth/middleware.rs`  : the per-request gate (`AuthMiddlewareService::call`);
  - `src/services/ufds.rs`    : `UfdsService::authenticate` and the error paths
                                of `UfdsService::authenticate_ldap`;
  - `src/error.rs`            : `AppError`, its HTTP status codes and the
                                client-facing JSON error body.

JSON-web-token cryptography is modelled symbolically: an HMAC signature is
determined exactly by the signing secret together with the signed content
(header algorithm and claims), which is the standard symbolic model of a MAC
under the assumption of no collisions/forgeries.  The opaque base64 wire
string of a token is modelled by an explicit executable serialization with a
verified parser, so that the middleware's string manipulation ("Bearer "
prefix stripping) operates on genuine strings.

The token validation constants mirror `jsonwebtoken`'s `Validation::default()`
(version 8 and later, as used by the source): accepted algorithms `[HS256]`,
`validate_exp = true`, and a default clock-skew leeway of 60 seconds.
-/

namespace TritonAdminUi

/-- Claims struct from `src/auth/mod.rs` lines 20-28: subject (user UUID
string), name, email, roles, expiration time `exp` and issued-at `iat`
(both seconds since epoch, `i64` modelled as `Int`). -/
structure Claims where
  sub : String
  name : String
  email : String
  roles : List String
  exp : Int
  iat : Int
deriving DecidableEq, Repr

/-- AppError enum from `src/error.rs` lines 7-35.  Variants that carry a
structured payload in Rust (`sqlx::Error`, `serde_json::Error`) carry their
display string here. -/
inductive AppError where
  | AuthError (msg : String)
  | AuthorizationError (msg : String)
  | NotFound (msg : String)
  | BadRequest (msg : String)
  | InternalServerError (msg : String)
  | ServiceUnavailable (msg : String)
  | DatabaseError (msg : String)
  | ValidationError (msg : String)
  | SerializationError (msg : String)
deriving DecidableEq, Repr

/-- Display implementation of `AppError`, generated by the `thiserror`
attributes in `src/error.rs` lines 7-35 (e.g. `"Authentication error: {0}"`). -/
def AppError.display : AppError → String
  | .AuthError m => "Authentication error: " ++ m
  | .AuthorizationError m => "Authorization error: " ++ m
  | .NotFound m => "Not found: " ++ m
  | .BadRequest m => "Bad request: " ++ m
  | .InternalServerError m => "Internal server error: " ++ m
  | .ServiceUnavailable m => "Service unavailable: " ++ m
  | .DatabaseError m => "Database error: " ++ m
  | .ValidationError m => "Validation error: " ++ m
  | .SerializationError m => "JSON serialization error: " ++ m

/-- HTTP status codes assigned by `impl ResponseError for AppError`
(`src/error.rs` lines 72-84). -/
def AppError.statusCode : AppError → Nat
  | .AuthError _ => 401
  | .AuthorizationError _ => 403
  | .NotFound _ => 404
  | .BadRequest _ => 400
  | .ValidationError _ => 400
  | .InternalServerError _ => 500
  | .ServiceUnavailable _ => 503
  | .DatabaseError _ => 500
  | .SerializationError _ => 500

/-- Client-facing error body built by `AppError::error_response`
(`src/error.rs` lines 37-70): a short code string plus the full display
message of the error. -/
structure ErrorResponse where
  code : String
  message : String
deriving DecidableEq, Repr

/-- Code string chosen by `AppError::error_response` (`src/error.rs`
lines 51-61). -/
def AppError.responseCode : AppError → String
  | .AuthError _ => "AuthError"
  | .AuthorizationError _ => "AuthorizationError"
  | .NotFound _ => "NotFound"
  | .BadRequest _ => "BadRequest"
  | .InternalServerError _ => "InternalServerError"
  | .ServiceUnavailable _ => "ServiceUnavailable"
  | .DatabaseError _ => "DatabaseError"
  | .ValidationError _ => "ValidationError"
  | .SerializationError _ => "SerializationError"

/-- Response assembled by `AppError::error_response` (`src/error.rs`
lines 44-70): the status code from `status_code` and a JSON body
`ErrorResponse \x7b code, message \x7d` where `message` is the error's full
display string (including the per-variant detail). -/
def AppError.errorResponse (e : AppError) : Nat × ErrorResponse :=
  (e.statusCode, { code := e.responseCode, message := e.display })

/-! ### Symbolic JWT tokens and their wire format -/

/-- Symbolic HMAC signature: in the symbolic model of a MAC, a signature
value is determined exactly by the signing secret and the signed content
(the encoded header and claims).  Two signatures are equal iff secret,
header algorithm and claims all agree. -/
structure JwtSignature where
  secret : String
  alg : String
  claims : Claims
deriving DecidableEq, Repr

/-- Structured view of a JWT before serialization: header (its `alg` field),
payload claims, and the signature over header and payload. -/
structure Token where
  alg : String
  claims : Claims
  sig : JwtSignature
deriving DecidableEq, Repr

/-- Character used for a decimal digit `d` (0-9). -/
def digitChar (d : Nat) : Char := Char.ofNat (48 + d)

/-- Little-endian decimal digits of a natural number, with explicit fuel so
that the recursion is structural (and hence kernel-reducible). -/
def natDigitsAux : Nat → Nat → List Char
  | _, 0 => []
  | 0, _ + 1 => []
  | fuel + 1, n + 1 => digitChar ((n + 1) % 10) :: natDigitsAux fuel ((n + 1) / 10)

/-- Little-endian decimal digits of a natural number; `natDigits 0 = []`.
`n` itself is always enough fuel since the value shrinks tenfold per step. -/
def natDigits (n : Nat) : List Char := natDigitsAux n n

/-- Encoding of a natural number: its digits followed by a colon terminator. -/
def encNat (n : Nat) : List Char := natDigits n ++ [':']

/-- Encoding of an `i64`: a sign character, then the magnitude. -/
def encInt (i : Int) : List Char :=
  (if i < 0 then '-' else '+') :: encNat i.natAbs

/-- Length-prefixed encoding of a character sequence. -/
def encChars (cs : List Char) : List Char := encNat cs.length ++ cs

/-- Count-prefixed encoding of a list of strings. -/
def encStrList (l : List String) : List Char :=
  encNat l.length ++ (l.map (fun s => encChars s.data)).flatten

/-- Wire encoding of a claim set (stand-in for the base64url-encoded JSON
payload; any injective serialization is an adequate model). -/
def encClaims (c : Claims) : List Char :=
  encChars c.sub.data ++ encChars c.name.data ++ encChars c.email.data ++
    encStrList c.roles ++ encInt c.exp ++ encInt c.iat

/-- Wire encoding of a symbolic signature. -/
def encSig (s : JwtSignature) : List Char :=
  encChars s.secret.data ++ encChars s.alg.data ++ encClaims s.claims

/-- Serialization of a token to its opaque wire string (the value returned
by `jsonwebtoken::encode` in `create_token`). -/
def serializeToken (t : Token) : String :=
  ⟨encChars t.alg.data ++ encClaims t.claims ++ encSig t.sig⟩

/-- Numeric value of a decimal digit character. -/
def digitVal (c : Char) : Nat := c.toNat - 48

/-- Reads a little-endian run of decimal digit characters, returning its
value and the unconsumed remainder. -/
def parseDigits : List Char → Nat × List Char
  | [] => (0, [])
  | c :: cs =>
    if c.isDigit then
      let (n, rest) := parseDigits cs
      (digitVal c + 10 * n, rest)
    else (0, c :: cs)

/-- Reads an `encNat` encoding: digits then a colon. -/
def parseNatComp (cs : List Char) : Option (Nat × List Char) :=
  let (n, rest) := parseDigits cs
  match rest with
  | ':' :: r => some (n, r)
  | _ => none

/-- Reads an `encInt` encoding: sign then magnitude. -/
def parseIntComp (cs : List Char) : Option (Int × List Char) :=
  match cs with
  | '+' :: rest =>
    match parseNatComp rest with
    | some (n, r) => some ((n : Int), r)
    | none => none
  | '-' :: rest =>
    match parseNatComp rest with
    | some (n, r) => some (-(n : Int), r)
    | none => none
  | _ => none

/-- Reads an `encChars` encoding: a length then that many characters. -/
def parseChars (cs : List Char) : Option (List Char × List Char) :=
  match parseNatComp cs with
  | some (n, rest) =>
    if n ≤ rest.length then some (rest.take n, rest.drop n) else none
  | none => none

/-- Reads `n` consecutive `encChars` encodings. -/
def parseStrListAux : Nat → List Char → Option (List String × List Char)
  | 0, cs => some ([], cs)
  | n + 1, cs =>
    match parseChars cs with
    | some (s, rest) =>
      match parseStrListAux n rest with
      | some (l, r) => some (⟨s⟩ :: l, r)
      | none => none
    | none => none

/-- Reads an `encStrList` encoding. -/
def parseStrList (cs : List Char) : Option (List String × List Char) :=
  match parseNatComp cs with
  | some (n, rest) => parseStrListAux n rest
  | none => none

/-- Reads an `encClaims` encoding. -/
def parseClaims (cs : List Char) : Option (Claims × List Char) :=
  match parseChars cs with
  | some (sub, r1) =>
    match parseChars r1 with
    | some (name, r2) =>
      match parseChars r2 with
      | some (email, r3) =>
        match parseStrList r3 with
        | some (roles, r4) =>
          match parseIntComp r4 with
          | some (exp, r5) =>
            match parseIntComp r5 with
            | some (iat, r6) =>
              some ({ sub := ⟨sub⟩, name := ⟨name⟩, email := ⟨email⟩,
                      roles := roles, exp := exp, iat := iat }, r6)
            | none => none
          | none => none
        | none => none
      | none => none
    | none => none
  | none => none

/-- Reads an `encSig` encoding. -/
def parseSig (cs : List Char) : Option (JwtSignature × List Char) :=
  match parseChars cs with
  | some (secret, r1) =>
    match parseChars r1 with
    | some (alg, r2) =>
      match parseClaims r2 with
      | some (claims, r3) => some ({ secret := ⟨secret⟩, alg := ⟨alg⟩, claims := claims }, r3)
      | none => none
    | none => none
  | none => none

/-- Parses a wire string back into a structured token; `none` models every
way `jsonwebtoken::decode` can fail to split/base64/JSON-decode the token
(the `Malformed` failure class). -/
def parseToken (s : String) : Option Token :=
  match parseChars s.data with
  | some (alg, r1) =>
    match parseClaims r1 with
    | some (claims, r2) =>
      match parseSig r2 with
      | some (sig, r3) =>
        match r3 with
        | [] => some { alg := ⟨alg⟩, claims := claims, sig := sig }
        | _ => none
      | none => none
    | none => none
  | none => none

/-! ### Token issue and verification (`src/auth/mod.rs`) -/

/-- Failure classes of `jsonwebtoken::decode` relevant to this pipeline,
named after the crate's `ErrorKind` display strings. -/
inductive TokenError where
  | InvalidToken
  | InvalidAlgorithm
  | InvalidSignature
  | ExpiredSignature
deriving DecidableEq, Repr

/-- Display string of a `jsonwebtoken` error (the crate renders the error
kind's name). -/
def TokenError.display : TokenError → String
  | .InvalidToken => "InvalidToken"
  | .InvalidAlgorithm => "InvalidAlgorithm"
  | .InvalidSignature => "InvalidSignature"
  | .ExpiredSignature => "ExpiredSignature"

/-- Default clock-skew leeway (seconds) of `jsonwebtoken`'s
`Validation::default()`. -/
def defaultLeeway : Int := 60

/-- Header algorithm produced by `jsonwebtoken::Header::default()` and the
single algorithm accepted by `Validation::default()`. -/
def hs256 : String := "HS256"

/-- Model of `jsonwebtoken::decode::<Claims>(token, key, Validation::default())`
at current time `now`: parse the token, check the header algorithm is among
the accepted ones, check the signature against `secret`, then validate
`exp` against `now` minus the leeway.  The order (signature before expiry)
follows the crate: `verify_signature` runs before claim validation. -/
def jwtDecode (now : Int) (token secret : String) : Except TokenError Claims :=
  match parseToken token with
  | none => .error .InvalidToken
  | some t =>
    if t.alg ≠ hs256 then .error .InvalidAlgorithm
    else if t.sig ≠ { secret := secret, alg := t.alg, claims := t.claims } then
      .error .InvalidSignature
    else if t.claims.exp < now - defaultLeeway then .error .ExpiredSignature
    else .ok t.claims

/-- Claims built by `create_token` (`src/auth/mod.rs` lines 115-125):
`iat = now.timestamp()`, `exp = (now + Duration::hours(expiration_hours)).timestamp()`,
i.e. `exp = iat + expiration_hours * 3600`. -/
def create_token_claims (now : Int) (userId name email : String)
    (roles : List String) (expirationHours : Int) : Claims :=
  { sub := userId, name := name, email := email, roles := roles,
    iat := now, exp := now + expirationHours * 3600 }

/-- Model of `create_token` (`src/auth/mod.rs` lines 107-133): build the
claims and sign them with `secret` under the default HS256 header.  The
symbolic `encode` is total, so the error branch of the Rust `Result` is
never taken. -/
def create_token (now : Int) (secret userId name email : String)
    (roles : List String) (expirationHours : Int) : Except AppError String :=
  let claims := create_token_claims now userId name email roles expirationHours
  .ok (serializeToken
    { alg := hs256, claims := claims,
      sig := { secret := secret, alg := hs256, claims := claims } })

/-- Model of `verify_token` (`src/auth/mod.rs` lines 135-144): decode with
the default validation and map any decode error to
`AppError::AuthError("Invalid token: {e}")`. -/
def verify_token (now : Int) (token secret : String) : Except AppError Claims :=
  match jwtDecode now token secret with
  | .ok c => .ok c
  | .error e => .error (.AuthError ("Invalid token: " ++ e.display))

/-! ### UUID parsing (`uuid::Uuid::parse_str`) -/

/-- Hexadecimal value of a character, if it is a hex digit. -/
def hexVal (c : Char) : Option Nat :=
  if 48 ≤ c.toNat ∧ c.toNat ≤ 57 then some (c.toNat - 48)
  else if 97 ≤ c.toNat ∧ c.toNat ≤ 102 then some (c.toNat - 87)
  else if 65 ≤ c.toNat ∧ c.toNat ≤ 70 then some (c.toNat - 55)
  else none

/-- Decodes an even-length run of hex digits into bytes. -/
def hexPairs : List Char → Option (List Nat)
  | [] => some []
  | c1 :: c2 :: rest =>
    match hexVal c1, hexVal c2, hexPairs rest with
    | some hi, some lo, some bs => some ((16 * hi + lo) :: bs)
    | _, _, _ => none
  | [_] => none

/-- Opening curly-brace character of the braced UUID format. -/
def leftBraceChar : Char := Char.ofNat 123

/-- Closing curly-brace character of the braced UUID format. -/
def rightBraceChar : Char := Char.ofNat 125

/-- Parses the 36-character hyphenated UUID format: five hex groups of
lengths 8-4-4-4-12 separated by dashes. -/
def parseHyphenated (cs : List Char) : Option (List Nat) :=
  match cs.splitOn '-' with
  | [g1, g2, g3, g4, g5] =>
    if g1.length = 8 ∧ g2.length = 4 ∧ g3.length = 4 ∧ g4.length = 4 ∧ g5.length = 12 then
      hexPairs (g1 ++ g2 ++ g3 ++ g4 ++ g5)
    else none
  | _ => none

/-- Model of `uuid::Uuid::parse_str`, dispatching on length like the crate:
32 = simple, 36 = hyphenated, 38 = braced hyphenated, 45 = URN-prefixed
hyphenated; anything else fails.  A UUID is its sequence of 16 bytes. -/
def parseUuid (s : String) : Option (List Nat) :=
  let cs := s.data
  if cs.length = 32 then hexPairs cs
  else if cs.length = 36 then parseHyphenated cs
  else if cs.length = 38 then
    match cs with
    | c :: rest =>
      if c = leftBraceChar ∧ rest.getLast? = some rightBraceChar then
        parseHyphenated rest.dropLast
      else none
    | [] => none
  else if cs.length = 45 then
    if "urn:uuid:".data.isPrefixOf cs then parseHyphenated (cs.drop 9) else none
  else none

/-- Model of `uuid::Uuid::nil()`: sixteen zero bytes. -/
def nilUuid : List Nat := List.replicate 16 0

/-! ### The request gate (`src/auth/middleware.rs`) -/

/-- HTTP request methods relevant to the gate; the gate only ever compares
the method against `OPTIONS`. -/
inductive Method where
  | OPTIONS
  | GET
  | POST
  | PUT
  | DELETE
  | HEAD
  | PATCH
deriving DecidableEq, Repr

/-- Inbound request as seen by the gate: its method and its raw
`Authorization` header, when present, as a byte sequence (actix header
values are byte strings that may fail to convert to `str`). -/
structure ServiceRequest where
  method : Method
  authorization : Option (List Nat)
deriving Repr

/-- Authenticated principal attached to the request context
(`AuthenticatedUser` in `src/auth/mod.rs` lines 50-56); `id` is the UUID's
16 bytes. -/
structure AuthenticatedUser where
  id : List Nat
  name : String
  email : String
  roles : List String
deriving DecidableEq, Repr

/-- JSON body of a gate rejection, `serde_json::json!(\x7b "error": reason \x7d)`. -/
structure JsonError where
  error : String
deriving DecidableEq, Repr

/-- Outcome of one evaluation of the gate: either the wrapped downstream
service is invoked (with the principal, if any, that was inserted into the
request extensions), or the gate short-circuits with an HTTP response and
the downstream service is never called. -/
inductive GateOutcome where
  | forwarded (principal : Option AuthenticatedUser)
  | rejected (status : Nat) (body : JsonError)
deriving DecidableEq, Repr

/-- Predicate for visible-ASCII bytes (plus horizontal tab), the bytes for
which the `http` crate's `HeaderValue::to_str` succeeds. -/
def isVisibleAscii (b : Nat) : Bool :=
  decide ((32 ≤ b ∧ b < 127) ∨ b = 9)

/-- Model of `HeaderValue::to_str`: succeeds, yielding the corresponding
character string, iff every byte is visible ASCII (or tab). -/
def headerToStr (bs : List Nat) : Option String :=
  if bs.all isVisibleAscii then some ⟨bs.map Char.ofNat⟩ else none

/-- Model of `AuthMiddlewareService::call` (`src/auth/middleware.rs`
lines 64-145) at current time `now` with the configured `jwt_secret`:

1. an `OPTIONS` request is forwarded downstream untouched, with no
   principal attached;
2. a missing `Authorization` header short-circuits with 401
   `"Missing authorization header"`;
3. a header that fails `to_str` short-circuits with 401
   `"Invalid authorization header"`;
4. a header string lacking the `"Bearer "` prefix short-circuits with 401
   `"Invalid authorization header format"`;
5. otherwise the characters after the prefix (`&auth_str[7..]`, a 7-byte
   ASCII prefix, hence the 7-character drop) are passed to `verify_token`;
   on failure the gate short-circuits with 401 `"Invalid token: {e}"`,
   and on success it attaches the `AuthenticatedUser` built from the
   claims — the subject parsed as a UUID, defaulting to the nil UUID via
   `unwrap_or_else(|_| Uuid::nil())` — and forwards downstream. -/
def authMiddlewareCall (now : Int) (jwtSecret : String) (req : ServiceRequest) :
    GateOutcome :=
  if req.method = Method.OPTIONS then
    .forwarded none
  else
    match req.authorization with
    | some bs =>
      match headerToStr bs with
      | some authStr =>
        if "Bearer ".data.isPrefixOf authStr.data then
          match verify_token now (authStr.drop 7) jwtSecret with
          | .ok claims =>
            .forwarded (some
              { id := (parseUuid claims.sub).getD nilUuid,
                name := claims.name, email := claims.email, roles := claims.roles })
          | .error e =>
            .rejected 401 { error := "Invalid token: " ++ e.display }
        else .rejected 401 { error := "Invalid authorization header format" }
      | none => .rejected 401 { error := "Invalid authorization header" }
    | none => .rejected 401 { error := "Missing authorization header" }

/-! ### Credential verification (`src/services/ufds.rs`) -/

/-- Model of `UfdsService::authenticate` (`src/services/ufds.rs`
lines 266-423).  The development allow-list (lines 267-285) is checked
first and returns fixed `(uuid, name, email, roles)` tuples without
touching the network.  Everything after the allow-list — the LDAP/LDAPS
bind-and-search or the HTTP-API fallback, both of which depend on the
configured endpoint and the external directory — is abstracted as the
`directory` oracle, so a result independent of that oracle is a result
obtained with no directory/network interaction. -/
def ufdsAuthenticate
    (directory : String → String → Except AppError (String × String × String × List String))
    (username password : String) :
    Except AppError (String × String × String × List String) :=
  if username = "admin" ∧ password = "admin" then
    .ok ("00000000-0000-0000-0000-000000000000", "Administrator",
      "admin@example.com", ["admin"])
  else if username = "operator" ∧ password = "operator" then
    .ok ("11111111-1111-1111-1111-111111111111", "System Operator",
      "operator@example.com", ["operator"])
  else directory username password

/-- Failure classes of `UfdsService::authenticate_ldap`
(`src/services/ufds.rs` lines 38-195), each carrying the display string of
the underlying library error where the source interpolates one. -/
inductive LdapFailure where
  | tlsBuild (detail : String)
  | connectLdaps (detail : String)
  | connectLdap (detail : String)
  | bind (detail : String)
  | search (detail : String)
  | notFound
deriving DecidableEq, Repr

/-- Error value returned by `UfdsService::authenticate_ldap` on each
failure class, transcribed from `src/services/ufds.rs` lines 56-60, 69-72,
78-81, 94-97, 110-113 and 118-121.  `authenticate` propagates these errors
unchanged (the `??` at line 321). -/
def LdapFailure.toAppError (username : String) : LdapFailure → AppError
  | .tlsBuild d => .AuthError ("TLS configuration error: " ++ d)
  | .connectLdaps d => .AuthError ("Cannot connect to LDAPS server: " ++ d)
  | .connectLdap d => .AuthError ("Cannot connect to LDAP server: " ++ d)
  | .bind d => .AuthError ("Authentication failed: " ++ d)
  | .search d => .AuthError ("Failed to retrieve user information: " ++ d)
  | .notFound => .AuthError ("User " ++ username ++ " not found in directory")

/-! ### Concrete artifacts used by per-claim witnesses -/

/-- Claim set of the C2 witness token: issued at time 0, one-hour expiry. -/
def c2Claims : Claims := create_token_claims 0 "u1" "Alice" "a@x" ["admin"] 1

/-- C2 witness token: `c2Claims` signed with secret "sec". -/
def c2Token : String :=
  serializeToken
    { alg := hs256, claims := c2Claims,
      sig := { secret := "sec", alg := hs256, claims := c2Claims } }

/-- Claim set of the C3 counterexample token: `exp = 3600`. -/
def c3Claims : Claims :=
  { sub := "u1", name := "A", email := "e", roles := [], exp := 3600, iat := 0 }

/-- C3 counterexample token: `c3Claims` signed with secret "sec". -/
def c3Token : String :=
  serializeToken
    { alg := hs256, claims := c3Claims,
      sig := { secret := "sec", alg := hs256, claims := c3Claims } }

/-- Structured token of the amended-C3 witness: already expired at `exp = 0`,
signed with secret "sec". -/
def c3ExpiredToken : Token :=
  { alg := hs256,
    claims := { sub := "u", name := "A", email := "e", roles := [], exp := 0, iat := 0 },
    sig := { secret := "sec", alg := hs256,
             claims := { sub := "u", name := "A", email := "e", roles := [],
                         exp := 0, iat := 0 } } }

/-- Claim set of the C4 witness token. -/
def c4Claims : Claims := create_token_claims 0 "u1" "A" "e" [] 1

/-- C4 witness token: `c4Claims` signed with secret "s1". -/
def c4Token : String :=
  serializeToken
    { alg := hs256, claims := c4Claims,
      sig := { secret := "s1", alg := hs256, claims := c4Claims } }

/-- Claim set of the C8 witness token: its subject is not a valid UUID. -/
def c8Claims : Claims :=
  { sub := "not-a-uuid", name := "N", email := "e", roles := [], exp := 3600, iat := 0 }

/-- C8 witness token: `c8Claims` signed with secret "sec". -/
def c8Token : String :=
  serializeToken
    { alg := hs256, claims := c8Claims,
      sig := { secret := "sec", alg := hs256, claims := c8Claims } }

/-- C8 witness request: a GET request presenting `c8Token` as a bearer
token (header bytes are the ASCII bytes of the header string). -/
def c8Request : ServiceRequest :=
  { method := .GET,
    authorization := some (("Bearer " ++ c8Token).data.map Char.toNat) }

/-! ### Round-trip of the wire codec -/

theorem digitChar_isDigit (d : Nat) (h : d < 10) : (digitChar d).isDigit = true := by
  interval_cases d <;> decide

theorem digitVal_digitChar (d : Nat) (h : d < 10) : digitVal (digitChar d) = d := by
  interval_cases d <;> decide

theorem parseDigits_natDigitsAux (fuel : Nat) : ∀ n, n ≤ fuel → ∀ r,
    parseDigits (natDigitsAux fuel n ++ ':' :: r) = (n, ':' :: r) := by
  induction fuel with
  | zero =>
    intro n hn r
    interval_cases n
    simp [natDigitsAux, parseDigits]
  | succ fuel ih =>
    intro n hn r
    match n with
    | 0 => simp [natDigitsAux, parseDigits]
    | m + 1 =>
      have h10 : (m + 1) % 10 < 10 := Nat.mod_lt _ (by norm_num)
      have hle : (m + 1) / 10 ≤ fuel := by omega
      have hrec := ih ((m + 1) / 10) hle r
      have hval : (m + 1) % 10 + 10 * ((m + 1) / 10) = m + 1 := by omega
      simp [natDigitsAux, parseDigits, digitChar_isDigit _ h10,
        digitVal_digitChar _ h10, hrec, hval]

theorem parseDigits_natDigits (n : Nat) (r : List Char) :
    parseDigits (natDigits n ++ ':' :: r) = (n, ':' :: r) :=
  parseDigits_natDigitsAux n n le_rfl r

theorem parseNatComp_enc (n : Nat) (r : List Char) :
    parseNatComp (encNat n ++ r) = some (n, r) := by
  have : encNat n ++ r = natDigits n ++ ':' :: r := by
    simp [encNat]
  rw [this, parseNatComp, parseDigits_natDigits]
  rfl

theorem parseIntComp_enc (i : Int) (r : List Char) :
    parseIntComp (encInt i ++ r) = some (i, r) := by
  by_cases h : i < 0
  · have habs : ((i.natAbs : Int)) = -i := by omega
    simp [encInt, h, parseIntComp, parseNatComp_enc, habs]
  · have habs : ((i.natAbs : Int)) = i := by omega
    simp [encInt, h, parseIntComp, parseNatComp_enc, habs]

theorem parseChars_enc (cs : List Char) (r : List Char) :
    parseChars (encChars cs ++ r) = some (cs, r) := by
  have : encChars cs ++ r = encNat cs.length ++ (cs ++ r) := by
    simp [encChars]
  rw [this, parseChars, parseNatComp_enc]
  have hle : cs.length ≤ (cs ++ r).length := by
    simp
  simp [hle, List.take_left, List.drop_left]

theorem parseStrListAux_enc (l : List String) (r : List Char) :
    parseStrListAux l.length ((l.map (fun s => encChars s.data)).flatten ++ r) =
      some (l, r) := by
  induction l with
  | nil => simp [parseStrListAux]
  | cons s rest ih =>
    have : ((s :: rest).map (fun s => encChars s.data)).flatten ++ r =
        encChars s.data ++ ((rest.map (fun s => encChars s.data)).flatten ++ r) := by
      simp
    rw [List.length_cons, this, parseStrListAux, parseChars_enc]
    simp [ih]

theorem parseStrList_enc (l : List String) (r : List Char) :
    parseStrList (encStrList l ++ r) = some (l, r) := by
  have : encStrList l ++ r =
      encNat l.length ++ ((l.map (fun s => encChars s.data)).flatten ++ r) := by
    simp [encStrList]
  rw [this, parseStrList, parseNatComp_enc]
  exact parseStrListAux_enc l r

theorem parseClaims_enc (c : Claims) (r : List Char) :
    parseClaims (encClaims c ++ r) = some (c, r) := by
  have : encClaims c ++ r =
      encChars c.sub.data ++ (encChars c.name.data ++ (encChars c.email.data ++
        (encStrList c.roles ++ (encInt c.exp ++ (encInt c.iat ++ r))))) := by
    simp [encClaims]
  rw [this, parseClaims]
  simp only [parseChars_enc, parseStrList_enc, parseIntComp_enc]

theorem parseSig_enc (s : JwtSignature) (r : List Char) :
    parseSig (encSig s ++ r) = some (s, r) := by
  have : encSig s ++ r =
      encChars s.secret.data ++ (encChars s.alg.data ++ (encClaims s.claims ++ r)) := by
    simp [encSig]
  rw [this, parseSig]
  simp only [parseChars_enc, parseClaims_enc]

/-- Serialization of a token is parsed back to exactly that token: the wire
format is injective, as the real base64url-of-JSON encoding is. -/
theorem parseToken_serializeToken (t : Token) : parseToken (serializeToken t) = some t := by
  have : (serializeToken t).data =
      encChars t.alg.data ++ (encClaims t.claims ++ (encSig t.sig ++ [])) := by
    simp [serializeToken]
  rw [parseToken, this]
  simp only [parseChars_enc, parseClaims_enc, parseSig_enc]

/-! ### Claim theorems -/

/-- C1: for every non-OPTIONS request whose Authorization header is absent,
or present but not starting with the exact prefix "Bearer ", or carrying a
token that fails verification, the gate responds with HTTP 401 and a JSON
body of the form error-colon-reason, and the wrapped downstream handler is
never invoked (no principal is attached). -/
theorem gate_rejects_unauthorized (now : Int) (secret : String) (req : ServiceRequest)
    (hm : req.method ≠ Method.OPTIONS)
    (h : req.authorization = none
      ∨ (∃ bs, req.authorization = some bs ∧
          ∀ s, headerToStr bs = some s → "Bearer ".data.isPrefixOf s.data = false)
      ∨ (∃ bs s e, req.authorization = some bs ∧ headerToStr bs = some s ∧
          "Bearer ".data.isPrefixOf s.data = true ∧
          verify_token now (s.drop 7) secret = .error e)) :
    (∃ reason, authMiddlewareCall now secret req = .rejected 401 { error := reason }) ∧
      ∀ p, authMiddlewareCall now secret req ≠ .forwarded p := by
  have key : ∃ reason,
      authMiddlewareCall now secret req = .rejected 401 { error := reason } := by
    rcases h with h | ⟨bs, hbs, hns⟩ | ⟨bs, s, e, hbs, hs, hpre, hv⟩
    · exact ⟨"Missing authorization header", by simp [authMiddlewareCall, hm, h]⟩
    · cases hh : headerToStr bs with
      | none =>
        exact ⟨"Invalid authorization header",
          by simp [authMiddlewareCall, hm, hbs, hh]⟩
      | some s =>
        exact ⟨"Invalid authorization header format",
          by simp [authMiddlewareCall, hm, hbs, hh, hns s hh]⟩
    · exact ⟨"Invalid token: " ++ e.display,
        by simp [authMiddlewareCall, hm, hbs, hs, hpre, hv]⟩
  refine ⟨key, ?_⟩
  rcases key with ⟨reason, hr⟩
  intro p
  rw [hr]
  simp

/-- Witness for C1 at a concrete input: a GET request with no Authorization
header is rejected with 401 and never forwarded. -/
theorem gate_rejects_unauthorized_witness :
    (∃ reason, authMiddlewareCall 0 "secret"
        { method := .GET, authorization := none } = .rejected 401 { error := reason }) ∧
      ∀ p, authMiddlewareCall 0 "secret" { method := .GET, authorization := none } ≠
        .forwarded p :=
  gate_rejects_unauthorized 0 "secret" { method := .GET, authorization := none }
    (by decide) (Or.inl rfl)

/-- C2: verifying a token with the same secret it was issued with, at any
time before `expires_at`, succeeds and returns exactly the issued claim set
(same subject, name, email, roles, iat, exp). -/
theorem verify_after_create_roundtrip (now t : Int) (secret userId name email : String)
    (roles : List String) (hours : Int) (tok : String)
    (hc : create_token now secret userId name email roles hours = .ok tok)
    (ht : t < now + hours * 3600) :
    verify_token t tok secret =
      .ok { sub := userId, name := name, email := email, roles := roles,
            exp := now + hours * 3600, iat := now } := by
  simp only [create_token, Except.ok.injEq] at hc
  subst hc
  unfold verify_token jwtDecode
  rw [parseToken_serializeToken]
  have hexp : ¬ (now + hours * 3600 < t - defaultLeeway) := by
    unfold defaultLeeway
    omega
  simp [create_token_claims, hexp]

/-- Witness for C2 at a concrete input: a token issued at time 0 for one
hour verifies at time 10 and returns the issued claims. -/
theorem verify_after_create_roundtrip_witness :
    verify_token 10 c2Token "sec" =
      .ok { sub := "u1", name := "Alice", email := "a@x", roles := ["admin"],
            exp := 3600, iat := 0 } :=
  verify_after_create_roundtrip 0 10 "sec" "u1" "Alice" "a@x" ["admin"] 1 c2Token
    (by rfl) (by norm_num)

/-- C3 counterexample: a token whose `expires_at` (3600) lies strictly in
the past at verification time (3630), carrying a valid signature under the
supplied secret, is NOT rejected as expired: `Validation::default()` of the
JWT library applies a 60-second clock-skew leeway, so verification
succeeds.  This refutes the claim that every strictly-past `expires_at`
yields the Expired error. -/
theorem expired_within_leeway_not_rejected :
    c3Claims.exp < 3630 ∧ verify_token 3630 c3Token "sec" = .ok c3Claims :=
  ⟨by norm_num [c3Claims], by rfl⟩

/-- C3 amended: for a parseable token with the default header algorithm and
a signature valid under the supplied secret, `verify_token` returns the
Expired error exactly when `expires_at` lies more than the default
60-second leeway in the past; within the leeway window a strictly-past
`expires_at` still verifies. -/
theorem expired_beyond_leeway_rejected (now : Int) (secret tokStr : String) (t : Token)
    (hp : parseToken tokStr = some t)
    (halg : t.alg = hs256)
    (hsig : t.sig = { secret := secret, alg := t.alg, claims := t.claims }) :
    verify_token now tokStr secret =
        .error (.AuthError ("Invalid token: " ++ TokenError.display .ExpiredSignature)) ↔
      t.claims.exp < now - defaultLeeway := by
  unfold verify_token jwtDecode
  rw [hp]
  by_cases hlee : t.claims.exp < now - defaultLeeway
  · simp [halg, hsig, hlee]
  · simp [halg, hsig, hlee]

/-- Witness for the amended C3: a token expired 100 seconds before the
verification time (beyond the 60-second leeway) is rejected as expired. -/
theorem expired_beyond_leeway_rejected_witness :
    verify_token 100 (serializeToken c3ExpiredToken) "sec" =
        .error (.AuthError ("Invalid token: " ++ TokenError.display .ExpiredSignature)) ↔
      c3ExpiredToken.claims.exp < 100 - defaultLeeway :=
  expired_beyond_leeway_rejected 100 "sec" (serializeToken c3ExpiredToken)
    c3ExpiredToken (parseToken_serializeToken c3ExpiredToken) rfl rfl

/-- C4: a token issued (signed) with secret `s1` and verified with any
different secret `s2` fails with the InvalidSignature error, at every
verification time; it never returns claims. -/
theorem verify_with_different_secret_fails (now t : Int)
    (s1 s2 userId name email : String) (roles : List String) (hours : Int)
    (tok : String)
    (hc : create_token now s1 userId name email roles hours = .ok tok)
    (hne : s2 ≠ s1) :
    verify_token t tok s2 =
      .error (.AuthError ("Invalid token: " ++ TokenError.display .InvalidSignature)) := by
  simp only [create_token, Except.ok.injEq] at hc
  subst hc
  unfold verify_token jwtDecode
  rw [parseToken_serializeToken]
  have hsig : ¬ (JwtSignature.mk s1 hs256 (create_token_claims now userId name email roles hours) =
      JwtSignature.mk s2 hs256 (create_token_claims now userId name email roles hours)) := by
    intro hcontra
    exact hne (congrArg JwtSignature.secret hcontra).symm
  simp [hsig]

/-- Witness for C4 at a concrete input: a token signed with "s1" verified
with "s2" yields the InvalidSignature error. -/
theorem verify_with_different_secret_fails_witness :
    verify_token 10 c4Token "s2" =
      .error (.AuthError ("Invalid token: " ++ TokenError.display .InvalidSignature)) :=
  verify_with_different_secret_fails 0 10 "s1" "s2" "u1" "A" "e" [] 1 c4Token
    (by rfl) (by decide)

/-- C5: every OPTIONS (pre-flight) request is forwarded to the downstream
handler with no principal attached, whatever the Authorization header
contains; such requests are never rejected by the gate. -/
theorem gate_allows_preflight (now : Int) (secret : String) (req : ServiceRequest)
    (hm : req.method = Method.OPTIONS) :
    authMiddlewareCall now secret req = .forwarded none := by
  unfold authMiddlewareCall
  rw [if_pos hm]

/-- Witness for C5 at a concrete input: an OPTIONS request carrying an
arbitrary (even non-string) Authorization header is forwarded with no
principal. -/
theorem gate_allows_preflight_witness :
    authMiddlewareCall 0 "secret" { method := .OPTIONS, authorization := some [200, 1] } =
      .forwarded none :=
  gate_allows_preflight 0 "secret" { method := .OPTIONS, authorization := some [200, 1] } rfl

/-- C6: for the credential pair ("admin", "admin"), `authenticate` returns
the fixed tuple with the nil UUID identity and role list exactly ["admin"],
for every directory oracle — i.e. without performing any directory or
network call, regardless of the configured endpoint. -/
theorem authenticate_admin_shortcircuit
    (directory : String → String → Except AppError (String × String × String × List String)) :
    ufdsAuthenticate directory "admin" "admin" =
      .ok ("00000000-0000-0000-0000-000000000000", "Administrator",
        "admin@example.com", ["admin"]) := rfl

/-- C7 (amended): every directory-side failure of `authenticate_ldap` is an
`AppError::AuthError`, hence surfaces to the HTTP client with status 401 —
never 500; but the client-facing JSON body's message equals the error's
full display string, which embeds the internal failure detail. -/
theorem ldap_failure_always_401_with_detail (username : String) (f : LdapFailure) :
    (f.toAppError username).statusCode = 401 ∧
    (∃ m, f.toAppError username = .AuthError m) ∧
    (f.toAppError username).errorResponse =
      (401, { code := "AuthError", message := (f.toAppError username).display }) := by
  cases f <;>
    simp [LdapFailure.toAppError, AppError.statusCode, AppError.errorResponse,
      AppError.responseCode]

/-- C7 counterexample: two directory connection failures that differ only
in their internal transport detail produce different client-facing bodies —
the detail is echoed in the message field — refuting the claim that the
body does not reveal the internal failure detail.  Both carry status 401. -/
theorem ldap_failure_detail_leak_counterexample :
    (LdapFailure.toAppError "alice" (.connectLdap "connection refused")).errorResponse =
      (401, { code := "AuthError",
              message := "Authentication error: Cannot connect to LDAP server: connection refused" }) ∧
    ((LdapFailure.toAppError "alice" (.connectLdap "connection refused")).errorResponse.2 ≠
      (LdapFailure.toAppError "alice" (.connectLdap "connection timed out")).errorResponse.2) := by
  constructor
  · rfl
  · decide

/-- C8: when the bearer token verifies but its subject does not parse as a
UUID, the gate does not reject: it attaches a principal whose identity is
the nil UUID and forwards to the downstream handler. -/
theorem gate_nil_uuid_on_bad_subject (now : Int) (secret : String) (req : ServiceRequest)
    (bs : List Nat) (s : String) (claims : Claims)
    (hm : req.method ≠ Method.OPTIONS)
    (hbs : req.authorization = some bs)
    (hs : headerToStr bs = some s)
    (hpre : "Bearer ".data.isPrefixOf s.data = true)
    (hv : verify_token now (s.drop 7) secret = .ok claims)
    (hu : parseUuid claims.sub = none) :
    authMiddlewareCall now secret req =
      .forwarded (some
        { id := nilUuid, name := claims.name, email := claims.email,
          roles := claims.roles }) := by
  simp [authMiddlewareCall, hm, hbs, hs, hpre, hv, hu]

/-- Witness for C8 at a concrete input: a valid token whose subject is
"not-a-uuid" is forwarded with the nil-UUID principal. -/
theorem gate_nil_uuid_on_bad_subject_witness :
    authMiddlewareCall 100 "sec" c8Request =
      .forwarded (some { id := nilUuid, name := "N", email := "e", roles := [] }) :=
  gate_nil_uuid_on_bad_subject 100 "sec" c8Request
    (("Bearer " ++ c8Token).data.map Char.toNat) ("Bearer " ++ c8Token) c8Claims
    (by decide) (by rfl) (by rfl) (by rfl) (by rfl) (by rfl)

/-- C9: the claims produced by the token issuer satisfy
`exp = iat + expiration_hours * 3600`, and `iat < exp` whenever the
configured expiration is positive. -/
theorem claims_exp_iat_invariant (now : Int) (userId name email : String)
    (roles : List String) (hours : Int) :
    (create_token_claims now userId name email roles hours).exp =
      (create_token_claims now userId name email roles hours).iat + hours * 3600 ∧
    (0 < hours →
      (create_token_claims now userId name email roles hours).iat <
        (create_token_claims now userId name email roles hours).exp) := by
  unfold create_token_claims
  refine ⟨rfl, ?_⟩
  intro hh
  simp only
  omega

/-- Witness for C9 at a concrete input: with a one-hour expiration issued
at time 0, `exp = iat + 3600` and `iat < exp`. -/
theorem claims_exp_iat_invariant_witness :
    (create_token_claims 0 "u" "n" "e" [] 1).exp =
      (create_token_claims 0 "u" "n" "e" [] 1).iat + 1 * 3600 ∧
    (0 < (1 : Int) →
      (create_token_claims 0 "u" "n" "e" [] 1).iat <
        (create_token_claims 0 "u" "n" "e" [] 1).exp) :=
  claims_exp_iat_invariant 0 "u" "n" "e" [] 1

/-- C10: for the credential pair ("operator", "operator"), `authenticate`
returns the fixed tuple with identity
11111111-1111-1111-1111-111111111111, name "System Operator", email
"operator@example.com" and roles exactly ["operator"], for every directory
oracle — the allow-list is checked before the directory path regardless of
configuration. -/
theorem authenticate_operator_shortcircuit
    (directory : String → String → Except AppError (String × String × String × List String)) :
    ufdsAuthenticate directory "operator" "operator" =
      .ok ("11111111-1111-1111-1111-111111111111", "System Operator",
        "operator@example.com", ["operator"]) := rfl

end TritonAdminUi
